import Mathlib

/-!
Verification of the client synchronization layer of the EagleEye supervision
dashboard, a shallow embedding of `app/static/script.js`.

The script wires Socket.IO event handlers to a small set of DOM fields:
a video image (`video-feed`), two numeric stat fields (`fps-stat`,
`faces-stat`), start/stop buttons, a "not monitoring" overlay, a connection
indicator (`status-dot` / `status-text`), a clock field and an alert-log
container.  We embed the DOM fields the script touches as a record, the
inbound/user events as an inductive type, and each handler as a pure state
transformer; a run of the client is a left fold of the step function over an
event list.

JavaScript's `new Date(t).toLocaleTimeString()` is modelled by an arbitrary
formatting function `fmt : String → String` over which all statements
quantify; numeric payload fields (`fps`, `face_count`) are embedded as the
strings they render to when assigned to `textContent`.
-/

namespace EagleEye

/-- One child of the `alerts-log` container: either a placeholder div
(class `alert-placeholder`) or an alert-item div built by the `new_alert`
handler, carrying its class list, formatted timestamp, message line
(the alert's `type`) and details line (the alert's `message`). -/
inductive LogEntry where
  | placeholder (text : String)
  | alertItem (classes : List String) (timestampText : String)
      (message : String) (details : String)
  deriving DecidableEq

/-- Payload of a `new_alert` event, as destructured by the handler. -/
structure Alert where
  timestamp : String
  type : String
  message : String
  severity : String
  deriving DecidableEq

/-- The DOM fields `script.js` reads or writes. -/
structure DomState where
  videoFeedSrc : String
  fpsStat : String
  facesStat : String
  startBtnDisabled : Bool
  stopBtnDisabled : Bool
  overlayDisplay : String
  alertsLog : List LogEntry
  statusDotConnected : Bool
  statusText : String
  timeDisplay : String
  deriving DecidableEq

/-- The supervision-session phase of the spec's SessionController.  The script
keeps no explicit phase variable; this ghost field records the spec's mapping
of transitions (start click enters `monitoring`, stop click enters `idle`,
a server stop notification or a disconnect enters `stoppedByServer`). -/
inductive Phase where
  | idle
  | monitoring
  | stoppedByServer
  deriving DecidableEq

/-- Full client state: the DOM fields, the ghost session phase, and the
accumulated list of outbound events emitted on the socket (oldest first). -/
structure ClientState where
  dom : DomState
  phase : Phase
  emitted : List String
  deriving DecidableEq

/-- Events the script reacts to: the five inbound socket events, the two
button clicks, and the periodic clock tick (carrying the rendered time). -/
inductive Event where
  | connect
  | disconnect
  | videoFrame (image : String) (fps : String) (face_count : String)
  | newAlert (a : Alert)
  | supervisionStopped
  | startClick
  | stopClick
  | clockTick (now : String)
  deriving DecidableEq

/-- `startSupervisionUI` from script.js: disables start, enables stop, hides
the overlay, and replaces the alert log's contents with the single
"Monitoring..." placeholder div. -/
def startSupervisionUI (d : DomState) : DomState :=
  { d with
    startBtnDisabled := true
    stopBtnDisabled := false
    overlayDisplay := "none"
    alertsLog := [LogEntry.placeholder "Monitoring..."] }

/-- `stopSupervisionUI` from script.js: enables start, disables stop, shows
the overlay, resets the video image to the fixed placeholder and both stat
fields to the unavailable marker. -/
def stopSupervisionUI (d : DomState) : DomState :=
  { d with
    startBtnDisabled := false
    stopBtnDisabled := true
    overlayDisplay := "flex"
    videoFeedSrc := "static/placeholder.png"
    fpsStat := "--"
    facesStat := "--" }

/-- Effect of `alertsLog.querySelector(".alert-placeholder")` followed by
`placeholder.remove()`: the first placeholder entry, if any, is removed;
everything else is untouched. -/
def removeFirstPlaceholder : List LogEntry → List LogEntry
  | [] => []
  | LogEntry.placeholder _ :: rest => rest
  | e :: rest => e :: removeFirstPlaceholder rest

/-- The alert-item div the `new_alert` handler builds: classes `alert-item`
and `severity-` suffixed with the payload severity, the formatted timestamp,
the payload `type` as the message line and the payload `message` as the
details line. -/
def mkAlertItem (fmt : String → String) (a : Alert) : LogEntry :=
  LogEntry.alertItem ["alert-item", "severity-" ++ a.severity]
    (fmt a.timestamp) a.type a.message

/-- One event-handler dispatch, following script.js line by line.  `fmt`
stands for `new Date(t).toLocaleTimeString()`. -/
def step (fmt : String → String) (e : Event) (s : ClientState) : ClientState :=
  match e with
  | .connect =>
      { s with dom := { s.dom with statusDotConnected := true, statusText := "CONNECTED" } }
  | .disconnect =>
      { s with
        dom := stopSupervisionUI
          { s.dom with statusDotConnected := false, statusText := "DISCONNECTED" }
        phase := .stoppedByServer }
  | .videoFrame image fps face_count =>
      { s with dom := { s.dom with
          videoFeedSrc := "data:image/jpeg;base64," ++ image
          fpsStat := fps
          facesStat := face_count } }
  | .newAlert a =>
      { s with dom := { s.dom with
          alertsLog := mkAlertItem fmt a :: removeFirstPlaceholder s.dom.alertsLog } }
  | .supervisionStopped =>
      { s with dom := stopSupervisionUI s.dom, phase := .stoppedByServer }
  | .startClick =>
      { s with
        dom := startSupervisionUI s.dom
        phase := .monitoring
        emitted := s.emitted ++ ["start_supervision"] }
  | .stopClick =>
      { s with
        dom := stopSupervisionUI s.dom
        phase := .idle
        emitted := s.emitted ++ ["stop_supervision"] }
  | .clockTick now =>
      { s with dom := { s.dom with timeDisplay := now } }

/-- A run of the client over a list of events, in delivery order. -/
def run (fmt : String → String) (es : List Event) (s : ClientState) : ClientState :=
  es.foldl (fun s e => step fmt e s) s

/-- Modelled from the spec: the initial DOM state is produced by the HTML
template (`app/templates`), which is not part of the visible source.  Per the
spec, the client starts in `idle` with start enabled and stop disabled, the
overlay shown, the video image at the fixed placeholder, the stat fields at
the unavailable marker, an initial placeholder entry in the alert log, and
the connection created in `disconnected`.  The placeholder's text and the
initial clock text are immaterial to every claim. -/
def initState : ClientState :=
  { dom :=
      { videoFeedSrc := "static/placeholder.png"
        fpsStat := "--"
        facesStat := "--"
        startBtnDisabled := false
        stopBtnDisabled := true
        overlayDisplay := "flex"
        alertsLog := [LogEntry.placeholder "No alerts yet."]
        statusDotConnected := false
        statusText := "DISCONNECTED"
        timeDisplay := "" }
    phase := .idle
    emitted := [] }

/-- Projection onto the session-UI fields that a stop-reset concerns: video
image, the two stat fields, the two button enablement flags, the overlay, and
the alert log (everything except the connection indicator and the clock). -/
def sessionUI (d : DomState) :
    String × String × String × Bool × Bool × String × List LogEntry :=
  (d.videoFeedSrc, d.fpsStat, d.facesStat,
   d.startBtnDisabled, d.stopBtnDisabled, d.overlayDisplay, d.alertsLog)

/-! ## Helper lemmas -/

/-- Runs split across list concatenation. -/
theorem run_append (fmt : String → String) (es fs : List Event) (s : ClientState) :
    run fmt (es ++ fs) s = run fmt fs (run fmt es s) :=
  List.foldl_append _ _ es fs

/-- Video-frame events never change the session phase. -/
theorem run_videoFrames_phase (fmt : String → String)
    (frames : List (String × String × String)) (s : ClientState) :
    (run fmt (frames.map fun p => Event.videoFrame p.1 p.2.1 p.2.2) s).phase = s.phase := by
  induction frames generalizing s with
  | nil => rfl
  | cons p rest ih => simpa [run, step] using ih (step fmt (Event.videoFrame p.1 p.2.1 p.2.2) s)

/-- Recognizer for the placeholder constructor of a log entry. -/
def isPlaceholderEntry : LogEntry → Bool
  | .placeholder _ => true
  | .alertItem _ _ _ _ => false

/-- Removing the first placeholder from a log with no placeholder is a no-op. -/
theorem removeFirstPlaceholder_eq_of_none (L : List LogEntry)
    (h : ∀ e ∈ L, isPlaceholderEntry e = false) : removeFirstPlaceholder L = L := by
  induction L with
  | nil => rfl
  | cons e rest ih =>
    cases e with
    | placeholder t =>
      exact absurd (h _ (List.mem_cons_self _ _)) (by simp [isPlaceholderEntry])
    | alertItem c t m d =>
      simp only [removeFirstPlaceholder]
      exact congrArg _ (ih fun e he => h e (List.mem_cons_of_mem _ he))

/-- A run of `new_alert` events over a log containing no placeholder prepends
the corresponding alert items, newest first. -/
theorem run_newAlerts_log (fmt : String → String) (alerts : List Alert) (s : ClientState)
    (h : ∀ e ∈ s.dom.alertsLog, isPlaceholderEntry e = false) :
    (run fmt (alerts.map Event.newAlert) s).dom.alertsLog
      = (alerts.map (mkAlertItem fmt)).reverse ++ s.dom.alertsLog := by
  induction alerts generalizing s with
  | nil => simp [run]
  | cons a rest ih =>
    have hstep : (step fmt (Event.newAlert a) s).dom.alertsLog
        = mkAlertItem fmt a :: s.dom.alertsLog := by
      simp [step, removeFirstPlaceholder_eq_of_none _ h]
    have hnew : ∀ e ∈ (step fmt (Event.newAlert a) s).dom.alertsLog,
        isPlaceholderEntry e = false := by
      rw [hstep]
      intro e he
      rcases List.mem_cons.mp he with he | he
      · subst he; rfl
      · exact h e he
    calc (run fmt ((a :: rest).map Event.newAlert) s).dom.alertsLog
        = (run fmt (rest.map Event.newAlert) (step fmt (Event.newAlert a) s)).dom.alertsLog := by
          simp [run]
      _ = (rest.map (mkAlertItem fmt)).reverse
            ++ (step fmt (Event.newAlert a) s).dom.alertsLog := ih _ hnew
      _ = ((a :: rest).map (mkAlertItem fmt)).reverse ++ s.dom.alertsLog := by
          rw [hstep]; simp

/-- Non-placeholder entries of a log, in order. -/
def alertItems (L : List LogEntry) : List LogEntry :=
  L.filter (fun e => !isPlaceholderEntry e)

/-- Removing the first placeholder preserves the non-placeholder entries. -/
theorem alertItems_removeFirstPlaceholder (L : List LogEntry) :
    alertItems (removeFirstPlaceholder L) = alertItems L := by
  induction L with
  | nil => rfl
  | cons e rest ih =>
    cases e with
    | placeholder t => simp [removeFirstPlaceholder, alertItems, isPlaceholderEntry]
    | alertItem c t m d =>
      simp only [removeFirstPlaceholder, alertItems, List.filter_cons]
      rw [show List.filter (fun e => !isPlaceholderEntry e) (removeFirstPlaceholder rest)
            = List.filter (fun e => !isPlaceholderEntry e) rest from ih]

/-! ## Claim theorems -/

/-- C1: every stop-inducing transition — user stop click, server
`supervision_stopped` notification, or transport disconnect — leaves the
session in the `idle` or `stoppedByServer` phase, resets the displayed video
image to the fixed placeholder `static/placeholder.png`, and resets both the
frame-rate and face-count indicators to the unavailable marker `--`. -/
theorem C1_stop_resets_display (fmt : String → String) (s : ClientState) (e : Event)
    (h : e = Event.stopClick ∨ e = Event.supervisionStopped ∨ e = Event.disconnect) :
    ((step fmt e s).phase = Phase.idle ∨ (step fmt e s).phase = Phase.stoppedByServer) ∧
    (step fmt e s).dom.videoFeedSrc = "static/placeholder.png" ∧
    (step fmt e s).dom.fpsStat = "--" ∧
    (step fmt e s).dom.facesStat = "--" := by
  rcases h with h | h | h <;> subst h <;> simp [step, stopSupervisionUI]

/-- Witness for C1 at the user-stop event from the initial state. -/
theorem C1_witness :
    ((step id Event.stopClick initState).phase = Phase.idle ∨
      (step id Event.stopClick initState).phase = Phase.stoppedByServer) ∧
    (step id Event.stopClick initState).dom.videoFeedSrc = "static/placeholder.png" ∧
    (step id Event.stopClick initState).dom.fpsStat = "--" ∧
    (step id Event.stopClick initState).dom.facesStat = "--" :=
  C1_stop_resets_display id initState Event.stopClick (Or.inl rfl)

/-- C3: a disconnect and a `supervision_stopped` notification, received while
the phase is `monitoring`, produce exactly the same session-UI reset (video
image, stat fields, button enablement, overlay, alert log) as an explicit
user stop, and neither appends anything to the outbound event list. -/
theorem C3_disconnect_serverstop_match_user_stop (fmt : String → String)
    (s : ClientState) (hmon : s.phase = Phase.monitoring) :
    sessionUI (step fmt Event.disconnect s).dom = sessionUI (step fmt Event.stopClick s).dom ∧
    sessionUI (step fmt Event.supervisionStopped s).dom
      = sessionUI (step fmt Event.stopClick s).dom ∧
    (step fmt Event.disconnect s).emitted = s.emitted ∧
    (step fmt Event.supervisionStopped s).emitted = s.emitted := by
  refine ⟨rfl, rfl, rfl, rfl⟩

/-- Witness for C3 at the monitoring state reached by a start click. -/
theorem C3_witness :
    sessionUI (step id Event.disconnect (step id Event.startClick initState)).dom
      = sessionUI (step id Event.stopClick (step id Event.startClick initState)).dom ∧
    sessionUI (step id Event.supervisionStopped (step id Event.startClick initState)).dom
      = sessionUI (step id Event.stopClick (step id Event.startClick initState)).dom ∧
    (step id Event.disconnect (step id Event.startClick initState)).emitted
      = (step id Event.startClick initState).emitted ∧
    (step id Event.supervisionStopped (step id Event.startClick initState)).emitted
      = (step id Event.startClick initState).emitted :=
  C3_disconnect_serverstop_match_user_stop id (step id Event.startClick initState) rfl

/-- C5: a user start click from `idle` disables the start control, enables
the stop control, hides the overlay, clears the alert log to the placeholder
state, appends the `start_supervision` command to the outbound event list,
and enters `monitoring` in the same synchronous handler, without any
intervening server event. -/
theorem C5_start_transition (fmt : String → String) (s : ClientState)
    (h : s.phase = Phase.idle) :
    (step fmt Event.startClick s).dom.startBtnDisabled = true ∧
    (step fmt Event.startClick s).dom.stopBtnDisabled = false ∧
    (step fmt Event.startClick s).dom.overlayDisplay = "none" ∧
    (step fmt Event.startClick s).dom.alertsLog = [LogEntry.placeholder "Monitoring..."] ∧
    (step fmt Event.startClick s).emitted = s.emitted ++ ["start_supervision"] ∧
    (step fmt Event.startClick s).phase = Phase.monitoring := by
  simp [step, startSupervisionUI]

/-- Witness for C5 at the initial idle state. -/
theorem C5_witness :
    (step id Event.startClick initState).dom.startBtnDisabled = true ∧
    (step id Event.startClick initState).dom.stopBtnDisabled = false ∧
    (step id Event.startClick initState).dom.overlayDisplay = "none" ∧
    (step id Event.startClick initState).dom.alertsLog
      = [LogEntry.placeholder "Monitoring..."] ∧
    (step id Event.startClick initState).emitted
      = initState.emitted ++ ["start_supervision"] ∧
    (step id Event.startClick initState).phase = Phase.monitoring :=
  C5_start_transition id initState rfl

/-- C6: a user start followed by a user stop from the initial idle state
restores the start/stop control enablement of the initial state (start
enabled, stop disabled) and resets the frame image and both stat fields to
their placeholder values. -/
theorem C6_start_stop_roundtrip (fmt : String → String) :
    (run fmt [Event.startClick, Event.stopClick] initState).dom.startBtnDisabled
      = initState.dom.startBtnDisabled ∧
    (run fmt [Event.startClick, Event.stopClick] initState).dom.stopBtnDisabled
      = initState.dom.stopBtnDisabled ∧
    (run fmt [Event.startClick, Event.stopClick] initState).dom.startBtnDisabled = false ∧
    (run fmt [Event.startClick, Event.stopClick] initState).dom.stopBtnDisabled = true ∧
    (run fmt [Event.startClick, Event.stopClick] initState).dom.videoFeedSrc
      = "static/placeholder.png" ∧
    (run fmt [Event.startClick, Event.stopClick] initState).dom.fpsStat = "--" ∧
    (run fmt [Event.startClick, Event.stopClick] initState).dom.facesStat = "--" ∧
    (run fmt [Event.startClick, Event.stopClick] initState).phase = Phase.idle := by
  refine ⟨rfl, rfl, rfl, rfl, rfl, rfl, rfl, rfl⟩

/-- C9: the three stop-reset transitions (user stop, server stop
notification, disconnect) leave the alert-log contents unchanged; only the
user start click resets the log, to the single placeholder entry. -/
theorem C9_stops_preserve_alert_log (fmt : String → String) (s : ClientState) (e : Event)
    (h : e = Event.stopClick ∨ e = Event.supervisionStopped ∨ e = Event.disconnect) :
    (step fmt e s).dom.alertsLog = s.dom.alertsLog ∧
    (step fmt Event.startClick s).dom.alertsLog
      = [LogEntry.placeholder "Monitoring..."] := by
  rcases h with h | h | h <;> subst h <;>
    exact ⟨rfl, rfl⟩

/-- Witness for C9 at the disconnect event from a post-alert state. -/
theorem C9_witness :
    (step id Event.disconnect
        (step id (Event.newAlert ⟨"t", "Phone Detected", "seen", "high"⟩)
          (step id Event.startClick initState))).dom.alertsLog
      = (step id (Event.newAlert ⟨"t", "Phone Detected", "seen", "high"⟩)
          (step id Event.startClick initState)).dom.alertsLog ∧
    (step id Event.startClick
        (step id (Event.newAlert ⟨"t", "Phone Detected", "seen", "high"⟩)
          (step id Event.startClick initState))).dom.alertsLog
      = [LogEntry.placeholder "Monitoring..."] :=
  C9_stops_preserve_alert_log id
    (step id (Event.newAlert ⟨"t", "Phone Detected", "seen", "high"⟩)
      (step id Event.startClick initState))
    Event.disconnect (Or.inr (Or.inr rfl))

/-- C10: the stop-reset is idempotent — `stopSupervisionUI` applied twice
equals `stopSupervisionUI` applied once on every DOM field; consequently a
redundant `supervision_stopped` notification changes nothing, and a
`supervision_stopped` notification followed by a disconnect leaves the same
DOM state as the disconnect alone. -/
theorem C10_stop_reset_idempotent :
    (∀ d : DomState, stopSupervisionUI (stopSupervisionUI d) = stopSupervisionUI d) ∧
    (∀ (fmt : String → String) (s : ClientState),
      step fmt Event.supervisionStopped (step fmt Event.supervisionStopped s)
        = step fmt Event.supervisionStopped s) ∧
    (∀ (fmt : String → String) (s : ClientState),
      (step fmt Event.disconnect (step fmt Event.supervisionStopped s)).dom
        = (step fmt Event.disconnect s).dom) := by
  refine ⟨fun d => rfl, fun fmt s => rfl, fun fmt s => rfl⟩

/-- C2: for every non-empty sequence of video_frame events delivered while
the phase is `monitoring`, after the last event the displayed image is the
base64 data-URL of that event's image payload and the stat fields equal that
event's fps and face_count values verbatim — last-write-wins, with no
smoothing, validation, or rate limiting — and the phase is still
`monitoring` throughout. -/
theorem C2_frames_last_write_wins (fmt : String → String) (s : ClientState)
    (frames l : List (String × String × String)) (x : String × String × String)
    (hmon : s.phase = Phase.monitoring) (hfr : frames = l ++ [x]) :
    (run fmt (frames.map fun p => Event.videoFrame p.1 p.2.1 p.2.2) s).dom.videoFeedSrc
      = "data:image/jpeg;base64," ++ x.1 ∧
    (run fmt (frames.map fun p => Event.videoFrame p.1 p.2.1 p.2.2) s).dom.fpsStat = x.2.1 ∧
    (run fmt (frames.map fun p => Event.videoFrame p.1 p.2.1 p.2.2) s).dom.facesStat = x.2.2 ∧
    (run fmt (frames.map fun p => Event.videoFrame p.1 p.2.1 p.2.2) s).phase
      = Phase.monitoring := by
  subst hfr
  refine ⟨?_, ?_, ?_, (run_videoFrames_phase fmt (l ++ [x]) s).trans hmon⟩ <;>
    rw [List.map_append, run_append] <;> rfl

/-- Witness for C2 on the spec's three-frame scenario from a monitoring
state. -/
theorem C2_witness :
    (run id ([("a", "24", "1"), ("b", "25", "2"), ("c", "23", "1")].map
        fun p => Event.videoFrame p.1 p.2.1 p.2.2)
      (step id Event.startClick initState)).dom.videoFeedSrc
      = "data:image/jpeg;base64," ++ "c" ∧
    (run id ([("a", "24", "1"), ("b", "25", "2"), ("c", "23", "1")].map
        fun p => Event.videoFrame p.1 p.2.1 p.2.2)
      (step id Event.startClick initState)).dom.fpsStat = "23" ∧
    (run id ([("a", "24", "1"), ("b", "25", "2"), ("c", "23", "1")].map
        fun p => Event.videoFrame p.1 p.2.1 p.2.2)
      (step id Event.startClick initState)).dom.facesStat = "1" ∧
    (run id ([("a", "24", "1"), ("b", "25", "2"), ("c", "23", "1")].map
        fun p => Event.videoFrame p.1 p.2.1 p.2.2)
      (step id Event.startClick initState)).phase = Phase.monitoring :=
  C2_frames_last_write_wins id (step id Event.startClick initState)
    [("a", "24", "1"), ("b", "25", "2"), ("c", "23", "1")]
    [("a", "24", "1"), ("b", "25", "2")] ("c", "23", "1") rfl rfl

/-- C4: for every non-empty sequence of new_alert events delivered after the
session reset performed by a start click (which installs the log's
placeholder), the log equals the reverse of the arrival order — each entry an
alert-item carrying the severity-derived class and the formatted timestamp,
the first alert having replaced the placeholder — and the log length equals
the number of alerts received since that reset. -/
theorem C4_alert_log_after_reset (fmt : String → String) (s : ClientState)
    (alerts : List Alert) (hne : alerts ≠ []) :
    (run fmt (alerts.map Event.newAlert) (step fmt Event.startClick s)).dom.alertsLog
      = (alerts.map fun a => LogEntry.alertItem ["alert-item", "severity-" ++ a.severity]
          (fmt a.timestamp) a.type a.message).reverse ∧
    (run fmt (alerts.map Event.newAlert) (step fmt Event.startClick s)).dom.alertsLog.length
      = alerts.length := by
  rcases alerts with _ | ⟨a, rest⟩
  · exact absurd rfl hne
  · have hs2 : (step fmt (Event.newAlert a) (step fmt Event.startClick s)).dom.alertsLog
        = [mkAlertItem fmt a] := rfl
    have hnp : ∀ e ∈ (step fmt (Event.newAlert a) (step fmt Event.startClick s)).dom.alertsLog,
        isPlaceholderEntry e = false := by
      rw [hs2]
      intro e he
      rcases List.mem_singleton.mp he with rfl
      rfl
    have hmain : (run fmt ((a :: rest).map Event.newAlert)
          (step fmt Event.startClick s)).dom.alertsLog
        = ((a :: rest).map (mkAlertItem fmt)).reverse := by
      have hrest := run_newAlerts_log fmt rest
        (step fmt (Event.newAlert a) (step fmt Event.startClick s)) hnp
      rw [hs2] at hrest
      calc (run fmt ((a :: rest).map Event.newAlert)
              (step fmt Event.startClick s)).dom.alertsLog
          = (run fmt (rest.map Event.newAlert)
              (step fmt (Event.newAlert a) (step fmt Event.startClick s))).dom.alertsLog := by
            simp [run]
        _ = (rest.map (mkAlertItem fmt)).reverse ++ [mkAlertItem fmt a] := hrest
        _ = ((a :: rest).map (mkAlertItem fmt)).reverse := by simp
    refine ⟨hmain.trans rfl, ?_⟩
    rw [hmain]
    simp

/-- Witness for C4 on the spec's two-alert scenario. -/
theorem C4_witness :
    (run id (([⟨"t1", "Phone Detected", "m1", "high"⟩,
          ⟨"t2", "Gaze Away", "m2", "low"⟩] : List Alert).map Event.newAlert)
        (step id Event.startClick initState)).dom.alertsLog
      = (([⟨"t1", "Phone Detected", "m1", "high"⟩,
          ⟨"t2", "Gaze Away", "m2", "low"⟩] : List Alert).map
          fun a => LogEntry.alertItem ["alert-item", "severity-" ++ a.severity]
            (id a.timestamp) a.type a.message).reverse ∧
    (run id (([⟨"t1", "Phone Detected", "m1", "high"⟩,
          ⟨"t2", "Gaze Away", "m2", "low"⟩] : List Alert).map Event.newAlert)
        (step id Event.startClick initState)).dom.alertsLog.length = 2 :=
  C4_alert_log_after_reset id initState
    [⟨"t1", "Phone Detected", "m1", "high"⟩, ⟨"t2", "Gaze Away", "m2", "low"⟩]
    (List.cons_ne_nil _ _)

/-- C7 counterexample: after a start and a user stop the session is stopped
(phase `idle`) and the stat fields show the unavailable marker, yet a
video_frame event delivered in this stopped state still overwrites the
displayed image and stat fields, and a new_alert event still changes the
alert log — the handlers are not gated on the session phase. -/
theorem C7_counterexample :
    (run id [Event.startClick, Event.stopClick] initState).phase = Phase.idle ∧
    (run id [Event.startClick, Event.stopClick] initState).dom.fpsStat = "--" ∧
    (step id (Event.videoFrame "img" "30" "2")
        (run id [Event.startClick, Event.stopClick] initState)).dom.fpsStat = "30" ∧
    (step id (Event.videoFrame "img" "30" "2")
        (run id [Event.startClick, Event.stopClick] initState)).dom.facesStat = "2" ∧
    (step id (Event.videoFrame "img" "30" "2")
        (run id [Event.startClick, Event.stopClick] initState)).dom.videoFeedSrc
      = "data:image/jpeg;base64,img" ∧
    (step id (Event.newAlert ⟨"t0", "Phone Detected", "m0", "high"⟩)
        (run id [Event.startClick, Event.stopClick] initState)).dom.alertsLog
      ≠ (run id [Event.startClick, Event.stopClick] initState).dom.alertsLog := by
  refine ⟨rfl, rfl, rfl, rfl, rfl, ?_⟩
  decide

/-- C7 amended: the video_frame and new_alert handlers are unconditional —
in every state, regardless of the session phase, a video_frame event
overwrites the displayed image and both stat fields with the event's values,
a new_alert event prepends the alert's entry to the log, and neither event
changes the phase. -/
theorem C7_amended_handlers_unconditional (fmt : String → String) (s : ClientState)
    (image fps fc : String) (a : Alert) :
    (step fmt (Event.videoFrame image fps fc) s).dom.videoFeedSrc
      = "data:image/jpeg;base64," ++ image ∧
    (step fmt (Event.videoFrame image fps fc) s).dom.fpsStat = fps ∧
    (step fmt (Event.videoFrame image fps fc) s).dom.facesStat = fc ∧
    (step fmt (Event.newAlert a) s).dom.alertsLog
      = mkAlertItem fmt a :: removeFirstPlaceholder s.dom.alertsLog ∧
    (step fmt (Event.videoFrame image fps fc) s).phase = s.phase ∧
    (step fmt (Event.newAlert a) s).phase = s.phase :=
  ⟨rfl, rfl, rfl, rfl, rfl, rfl⟩

/-- C8 counterexample: the alert entry inserted for a high-severity alert is
in the log right after its arrival, but a subsequent user start click clears
the whole log back to the placeholder, removing the entry — so a later client
operation does remove previously inserted alert entries. -/
theorem C8_counterexample :
    mkAlertItem id ⟨"t0", "Phone Detected", "m0", "high"⟩
        ∈ (run id [Event.startClick,
            Event.newAlert ⟨"t0", "Phone Detected", "m0", "high"⟩]
            initState).dom.alertsLog ∧
    mkAlertItem id ⟨"t0", "Phone Detected", "m0", "high"⟩
        ∉ (run id [Event.startClick,
            Event.newAlert ⟨"t0", "Phone Detected", "m0", "high"⟩,
            Event.startClick] initState).dom.alertsLog := by
  decide

/-- C8 amended: apart from the user start click, which clears the entire log
back to the placeholder state, no event removes, reorders, deduplicates, or
mutates previously inserted alert entries — every event other than a start
click maps the log's non-placeholder entries to themselves, in order, at most
prepending new entries. -/
theorem C8_amended_entries_preserved (fmt : String → String) (s : ClientState)
    (e : Event) (h : e ≠ Event.startClick) :
    ∃ newEntries, alertItems (step fmt e s).dom.alertsLog
      = newEntries ++ alertItems s.dom.alertsLog := by
  cases e with
  | connect => exact ⟨[], rfl⟩
  | disconnect => exact ⟨[], rfl⟩
  | videoFrame image fps fc => exact ⟨[], rfl⟩
  | newAlert a =>
      refine ⟨[mkAlertItem fmt a], ?_⟩
      show mkAlertItem fmt a :: alertItems (removeFirstPlaceholder s.dom.alertsLog)
          = [mkAlertItem fmt a] ++ alertItems s.dom.alertsLog
      rw [alertItems_removeFirstPlaceholder]
      rfl
  | supervisionStopped => exact ⟨[], rfl⟩
  | startClick => exact absurd rfl h
  | stopClick => exact ⟨[], rfl⟩
  | clockTick now => exact ⟨[], rfl⟩

/-- Witness for C8's amended claim at the server-stop event from the initial
state. -/
theorem C8_amended_witness :
    ∃ newEntries, alertItems (step id Event.supervisionStopped initState).dom.alertsLog
      = newEntries ++ alertItems initState.dom.alertsLog :=
  C8_amended_entries_preserved id initState Event.supervisionStopped (by decide)

end EagleEye
